import Mathlib

/-!
Verification of the claude-hud activity-state classifier and cost tracker.

The activity-state classifier exists in three variants in the repository:
`src/render/animation-line.ts` (namespace `AnimationLine` below),
`src/render/mesmeric.ts` (namespace `Mesmeric`), and an alternate build of
the animation line (namespace `AltLine`).  All timestamps are modelled as
integer milliseconds, and the wall clock (`Date.now()`) is passed in as an
explicit `now` parameter.  JavaScript strings are modelled as Lean `String`
(a list of characters); `Math.round` on non-negative reals is `round` on ℚ.
-/

-- ===========================================================================
-- Data model (src/types.ts shapes used by the render functions)
-- ===========================================================================

/-- Status of a tool or agent entry: running or completed. -/
inductive RunStatus
  | running
  | completed
deriving DecidableEq

/-- Status of a todo item: pending, in_progress, or completed. -/
inductive TodoStatus
  | pending
  | in_progress
  | completed
deriving DecidableEq

/-- One invocation of an agent tool (`ToolEntry` in src/types.ts). -/
structure ToolEntry where
  name : String
  target : Option String
  status : RunStatus
  startTime : Int
  endTime : Option Int
deriving DecidableEq

/-- One subagent record (`AgentEntry`). -/
structure AgentEntry where
  type : String
  description : Option String
  status : RunStatus
  startTime : Int
deriving DecidableEq

/-- One todo-list item (`TodoItem`). -/
structure TodoItem where
  content : String
  status : TodoStatus
deriving DecidableEq

/-- Context-window usage numbers (`ctx.stdin.context_window.current_usage`);
each field is optional in the JSON and defaulted with `?? 0` in the code. -/
structure ContextUsage where
  input_tokens : Option Nat
  cache_creation_input_tokens : Option Nat
  cache_read_input_tokens : Option Nat
deriving DecidableEq

/-- The snapshot consumed by the classifiers.  The transcript lists
(`ctx.transcript.tools/agents/todos`) and the context-window numbers
(`ctx.stdin.context_window?.current_usage` and
`ctx.stdin.context_window?.context_window_size`) are flattened into one
record; an absent `context_window` object is the case where both options
are `none`. -/
structure RenderContext where
  tools : List ToolEntry
  agents : List AgentEntry
  todos : List TodoItem
  current_usage : Option ContextUsage
  context_window_size : Option Nat
deriving DecidableEq

/-- The `ActivityState` union from src/render/animations.ts, together with
the progress value used by the alternate build. -/
inductive ActivityState
  | idle
  | sleeping
  | thinking
  | reading
  | writing
  | searching
  | agent
  | bash
  | fetch
  | pressure
  | success
  | progress
deriving DecidableEq

/-- The `MesmericMode` union from src/render/mesmeric.ts. -/
inductive MesmericMode
  | IDLE
  | SCAN
  | BUILD
  | CRUNCH
  | SUCCESS
  | SLEEP
  | PRESSURE
deriving DecidableEq

/-- Return value of `detectActivityState`. -/
structure ActivityResult where
  state : ActivityState
  detail : String
  startTime : Option Int
deriving DecidableEq

/-- Return value of `detectMesmericMode`. -/
structure MesmericResult where
  mode : MesmericMode
  detail : String
deriving DecidableEq

-- ===========================================================================
-- String helpers shared by the classifier variants
-- ===========================================================================

/-- Helper for substring tests: does `pat` occur as a contiguous run at the
head of the second list? -/
def leadMatch : List Char → List Char → Bool
  | [], _ => true
  | _ :: _, [] => false
  | p :: ps, c :: cs => p == c && leadMatch ps cs

/-- Helper for substring tests: does `pat` occur as a contiguous run
anywhere in the list? -/
def containsSub (pat : List Char) : List Char → Bool
  | [] => pat.isEmpty
  | c :: cs => leadMatch pat (c :: cs) || containsSub pat cs

/-- JavaScript `s.includes(pat)`: substring containment. -/
def strIncludes (s pat : String) : Bool := containsSub pat.data s.data

/-- JavaScript `s.toLowerCase()` on the ASCII tool names used here:
character-wise lowercasing. -/
def jsToLower (s : String) : String := String.mk (s.data.map Char.toLower)

/-- JavaScript `a || b` on an optional string `a`: an absent or empty
string falls back to `b`. -/
def jsOr (a : Option String) (b : String) : String :=
  match a with
  | some s => if s = "" then b else s
  | none => b

/-- The `truncate` helper (identical in animation-line.ts and mesmeric.ts):
a string longer than `maxLen` is cut to its first `maxLen - 3` characters
with `"..."` appended.  `text.slice(0, maxLen - 3)` is `take (maxLen - 3)`;
every call site passes `maxLen = 25` or `maxLen = 30`. -/
def truncate (text : String) (maxLen : Nat) : String :=
  if text.length ≤ maxLen then text
  else String.mk (text.data.take (maxLen - 3)) ++ "..."

/-- Total of the three token counters, each defaulted with `?? 0`. -/
def ContextUsage.total (u : ContextUsage) : Nat :=
  u.input_tokens.getD 0 + u.cache_creation_input_tokens.getD 0 +
    u.cache_read_input_tokens.getD 0

/-- The `getContextPercent` helper (identical in all three variant files):
`Math.round((totalTokens / size) * 100)`, and `0` when the usage object or
the window size is absent — or the size is the falsy number `0`, so the
division never has a zero divisor. -/
def getContextPercent (ctx : RenderContext) : Int :=
  match ctx.current_usage, ctx.context_window_size with
  | some usage, some size =>
    if size = 0 then 0
    else round ((usage.total : ℚ) / (size : ℚ) * 100)
  | _, _ => 0

-- ===========================================================================
-- Variant 1: src/render/animation-line.ts
-- ===========================================================================

namespace AnimationLine

/-- Tool-name keyword table of animation-line.ts (`getToolState`): a chain
of case-insensitive substring tests, first match wins; `"ls"` is an exact
equality test. -/
def getToolState (tool : ToolEntry) : ActivityState :=
  let name := jsToLower tool.name
  if strIncludes name "read" || strIncludes name "glob" || name == "ls" then
    .reading
  else if strIncludes name "write" || strIncludes name "edit" ||
      strIncludes name "multiedit" || strIncludes name "notebook" then
    .writing
  else if strIncludes name "grep" || strIncludes name "search" ||
      strIncludes name "find" then
    .searching
  else if strIncludes name "bash" || strIncludes name "shell" ||
      strIncludes name "exec" then
    .bash
  else if strIncludes name "fetch" || strIncludes name "web" ||
      strIncludes name "http" then
    .fetch
  else if strIncludes name "task" || strIncludes name "agent" then
    .agent
  else
    .thinking

/-- Detail text for a running tool: the truncated `target` when it is a
non-empty string, else the tool name. -/
def getToolDetail (tool : ToolEntry) : String :=
  match tool.target with
  | some t => if t = "" then tool.name else truncate t 25
  | none => tool.name

/-- The tail of `detectActivityState` reached when no recent completion is
shown: the all-todos-done check, the in-progress-todo check, the
recent-history thinking/idle checks, and the sleeping fallback. -/
def detectAfterRecency (tools : List ToolEntry) (agents : List AgentEntry)
    (todos : List TodoItem) (now : Int) : ActivityResult :=
  if todos ≠ [] ∧ ∀ t ∈ todos, t.status = TodoStatus.completed then
    ⟨.success, "All tasks done!", none⟩
  else
    match todos.find? (fun t => decide (t.status = TodoStatus.in_progress)) with
    | some inProgressTodo => ⟨.thinking, truncate inProgressTodo.content 25, none⟩
    | none =>
      if tools ≠ [] ∨ agents ≠ [] then
        match tools.getLast? with
        | some lastTool =>
          match lastTool.endTime with
          | some e =>
            if now - e < 10000 then ⟨.thinking, "Processing...", none⟩
            else ⟨.idle, "Ready", none⟩
          | none => ⟨.idle, "Ready", none⟩
        | none => ⟨.idle, "Ready", none⟩
      else ⟨.sleeping, "Waiting for input", none⟩

/-- The `detectActivityState` classifier of animation-line.ts, with
`Date.now()` passed in as `now`. -/
def detectActivityState (ctx : RenderContext) (now : Int) : ActivityResult :=
  let tools := ctx.tools
  let agents := ctx.agents
  let todos := ctx.todos
  let contextPercent := getContextPercent ctx
  if contextPercent ≥ 90 then
    ⟨.pressure, toString contextPercent ++ "% context used", none⟩
  else
    match agents.find? (fun a => decide (a.status = RunStatus.running)) with
    | some runningAgent =>
      ⟨.agent, truncate (jsOr runningAgent.description runningAgent.type) 30,
        some runningAgent.startTime⟩
    | none =>
      match (tools.filter (fun t => decide (t.status = RunStatus.running))).getLast? with
      | some tool => ⟨getToolState tool, getToolDetail tool, some tool.startTime⟩
      | none =>
        match (tools.filter (fun t => decide (t.status = RunStatus.completed))).getLast? with
        | some mostRecent =>
          match mostRecent.endTime with
          | some e =>
            if now - e < 3000 then
              ⟨.success, mostRecent.name ++ " complete!", none⟩
            else detectAfterRecency tools agents todos now
          | none => detectAfterRecency tools agents todos now
        | none => detectAfterRecency tools agents todos now

end AnimationLine

-- ===========================================================================
-- Variant 2: the alternate build of the animation line (2-second window)
-- ===========================================================================

namespace AltLine

/-- Tool-name keyword table of the alternate build.  It differs from
animation-line.ts in two places: `"ls"` is a substring test
(a `name.includes` test on "ls") rather than an equality test, and the writing rule
has no `"notebook"` keyword. -/
def getToolState (tool : ToolEntry) : ActivityState :=
  let name := jsToLower tool.name
  if strIncludes name "read" || strIncludes name "glob" || strIncludes name "ls" then
    .reading
  else if strIncludes name "write" || strIncludes name "edit" ||
      strIncludes name "multiedit" then
    .writing
  else if strIncludes name "grep" || strIncludes name "search" ||
      strIncludes name "find" then
    .searching
  else if strIncludes name "bash" || strIncludes name "shell" ||
      strIncludes name "exec" then
    .bash
  else if strIncludes name "fetch" || strIncludes name "web" ||
      strIncludes name "http" then
    .fetch
  else if strIncludes name "task" || strIncludes name "agent" then
    .agent
  else
    .thinking

/-- Detail text for a running tool, identical to the animation-line.ts
version. -/
def getToolDetail (tool : ToolEntry) : String :=
  match tool.target with
  | some t => if t = "" then tool.name else truncate t 25
  | none => tool.name

/-- The tail of the alternate `detectActivityState` reached when no recent
completion is shown: the all-todos-done check, the history check, and the
idle fallback (there is no 10-second recency check in this variant). -/
def detectAfterRecency (tools : List ToolEntry) (agents : List AgentEntry)
    (todos : List TodoItem) : ActivityResult :=
  if todos ≠ [] ∧ ∀ t ∈ todos, t.status = TodoStatus.completed then
    ⟨.success, "All tasks complete!", none⟩
  else if tools ≠ [] ∨ agents ≠ [] then
    ⟨.thinking, "Processing...", none⟩
  else
    ⟨.idle, "Waiting for input", none⟩

/-- The alternate `detectActivityState`: the in-progress-todo check comes
before the recent-completion check, the recency window is 2000 ms, the
completion detail is `"{name} done!"`, and the completion is looked up in
`completedTools.slice(-3)` (whose last element is the last completed tool). -/
def detectActivityState (ctx : RenderContext) (now : Int) : ActivityResult :=
  let tools := ctx.tools
  let agents := ctx.agents
  let todos := ctx.todos
  let contextPercent := getContextPercent ctx
  if contextPercent ≥ 90 then
    ⟨.pressure, toString contextPercent ++ "% context used", none⟩
  else
    match agents.find? (fun a => decide (a.status = RunStatus.running)) with
    | some runningAgent =>
      ⟨.agent, truncate (jsOr runningAgent.description runningAgent.type) 30,
        some runningAgent.startTime⟩
    | none =>
      match (tools.filter (fun t => decide (t.status = RunStatus.running))).getLast? with
      | some tool => ⟨getToolState tool, getToolDetail tool, some tool.startTime⟩
      | none =>
        match todos.find? (fun t => decide (t.status = TodoStatus.in_progress)) with
        | some _ =>
          let completed := (todos.filter (fun t => decide (t.status = TodoStatus.completed))).length
          let total := todos.length
          ⟨.progress, toString completed ++ "/" ++ toString total ++ " tasks", none⟩
        | none =>
          let completedTools := tools.filter (fun t => decide (t.status = RunStatus.completed))
          let recentTools := completedTools.drop (completedTools.length - 3)
          match recentTools.getLast? with
          | some mostRecent =>
            match mostRecent.endTime with
            | some e =>
              if now - e < 2000 then
                ⟨.success, mostRecent.name ++ " done!", none⟩
              else detectAfterRecency tools agents todos
            | none => detectAfterRecency tools agents todos
          | none => detectAfterRecency tools agents todos

end AltLine

-- ===========================================================================
-- Variant 3: src/render/mesmeric.ts
-- ===========================================================================

namespace Mesmeric

/-- Tool-name keyword table of mesmeric.ts (`getToolMode`): the same
conditions as animation-line.ts, mapped onto `MesmericMode` values. -/
def getToolMode (tool : ToolEntry) : MesmericMode :=
  let name := jsToLower tool.name
  if strIncludes name "read" || strIncludes name "glob" || name == "ls" then
    .SCAN
  else if strIncludes name "write" || strIncludes name "edit" ||
      strIncludes name "multiedit" || strIncludes name "notebook" then
    .BUILD
  else if strIncludes name "grep" || strIncludes name "search" ||
      strIncludes name "find" then
    .SCAN
  else if strIncludes name "bash" || strIncludes name "shell" ||
      strIncludes name "exec" then
    .CRUNCH
  else if strIncludes name "fetch" || strIncludes name "web" ||
      strIncludes name "http" then
    .SCAN
  else if strIncludes name "task" || strIncludes name "agent" then
    .CRUNCH
  else
    .BUILD

/-- The tail of `detectMesmericMode` reached when no recent completion is
shown: all-todos-done, in-progress todo, recent history, and the sleep
fallback. -/
def detectAfterRecency (tools : List ToolEntry) (agents : List AgentEntry)
    (todos : List TodoItem) (now : Int) : MesmericResult :=
  if todos ≠ [] ∧ ∀ t ∈ todos, t.status = TodoStatus.completed then
    ⟨.SUCCESS, "All tasks done!"⟩
  else
    match todos.find? (fun t => decide (t.status = TodoStatus.in_progress)) with
    | some inProgressTodo => ⟨.BUILD, truncate inProgressTodo.content 25⟩
    | none =>
      if tools ≠ [] ∨ agents ≠ [] then
        match tools.getLast? with
        | some lastTool =>
          match lastTool.endTime with
          | some e =>
            if now - e < 10000 then ⟨.IDLE, "Thinking..."⟩
            else ⟨.IDLE, "Ready"⟩
          | none => ⟨.IDLE, "Ready"⟩
        | none => ⟨.IDLE, "Ready"⟩
      else ⟨.SLEEP, "Waiting for input"⟩

/-- The `detectMesmericMode` classifier of mesmeric.ts, with `Date.now()`
passed in as `now`.  Its pressure detail is `"{percent}% context"` and its
recent-completion detail is the fixed string `"Complete!"`. -/
def detectMesmericMode (ctx : RenderContext) (now : Int) : MesmericResult :=
  let tools := ctx.tools
  let agents := ctx.agents
  let todos := ctx.todos
  let contextPercent := getContextPercent ctx
  if contextPercent ≥ 90 then
    ⟨.PRESSURE, toString contextPercent ++ "% context"⟩
  else
    match agents.find? (fun a => decide (a.status = RunStatus.running)) with
    | some runningAgent =>
      ⟨.CRUNCH, truncate (jsOr runningAgent.description runningAgent.type) 25⟩
    | none =>
      match (tools.filter (fun t => decide (t.status = RunStatus.running))).getLast? with
      | some tool =>
        ⟨getToolMode tool,
          match tool.target with
          | some t => if t = "" then tool.name else truncate t 25
          | none => tool.name⟩
      | none =>
        match (tools.filter (fun t => decide (t.status = RunStatus.completed))).getLast? with
        | some mostRecent =>
          match mostRecent.endTime with
          | some e =>
            if now - e < 3000 then ⟨.SUCCESS, "Complete!"⟩
            else detectAfterRecency tools agents todos now
          | none => detectAfterRecency tools agents todos now
        | none => detectAfterRecency tools agents todos now

end Mesmeric

-- ===========================================================================
-- Specification-side keyword table (for comparison with the code tables)
-- ===========================================================================

/-- Closed set of tool categories named by the keyword table of the
specification. -/
inductive ToolCategory
  | reading
  | writing
  | searching
  | bash
  | fetch
  | agentTask
  | other
deriving DecidableEq

/-- Keyword table written from the words of the specification: lowercase name
containing "read" or "glob", or exactly equal to "ls", is reading; containing
"write", "edit", "multiedit", or "notebook" is writing; containing "grep",
"search", or "find" is searching; containing "bash", "shell", or "exec" is
bash; containing "fetch", "web", or "http" is fetch; containing "task" or
"agent" is the agent/task category; anything else is the fallback; earlier
rules win. -/
def specToolCategory (name : String) : ToolCategory :=
  let n := jsToLower name
  if strIncludes n "read" || strIncludes n "glob" || n == "ls" then
    .reading
  else if strIncludes n "write" || strIncludes n "edit" ||
      strIncludes n "multiedit" || strIncludes n "notebook" then
    .writing
  else if strIncludes n "grep" || strIncludes n "search" ||
      strIncludes n "find" then
    .searching
  else if strIncludes n "bash" || strIncludes n "shell" ||
      strIncludes n "exec" then
    .bash
  else if strIncludes n "fetch" || strIncludes n "web" ||
      strIncludes n "http" then
    .fetch
  else if strIncludes n "task" || strIncludes n "agent" then
    .agentTask
  else
    .other

/-- Keyword table of the alternate build, stated at the category level: as
`specToolCategory` except that "ls" is a substring test and "notebook" is
not a writing keyword. -/
def specToolCategoryAlt (name : String) : ToolCategory :=
  let n := jsToLower name
  if strIncludes n "read" || strIncludes n "glob" || strIncludes n "ls" then
    .reading
  else if strIncludes n "write" || strIncludes n "edit" ||
      strIncludes n "multiedit" then
    .writing
  else if strIncludes n "grep" || strIncludes n "search" ||
      strIncludes n "find" then
    .searching
  else if strIncludes n "bash" || strIncludes n "shell" ||
      strIncludes n "exec" then
    .bash
  else if strIncludes n "fetch" || strIncludes n "web" ||
      strIncludes n "http" then
    .fetch
  else if strIncludes n "task" || strIncludes n "agent" then
    .agentTask
  else
    .other

/-- Interpretation of a category as an animation-line activity state
(reading, writing, searching, bash, fetch, agent, thinking fallback). -/
def ToolCategory.toState : ToolCategory → ActivityState
  | .reading => .reading
  | .writing => .writing
  | .searching => .searching
  | .bash => .bash
  | .fetch => .fetch
  | .agentTask => .agent
  | .other => .thinking

/-- Interpretation of a category as a mesmeric mode (scan, build, scan,
crunch, scan, crunch, build fallback). -/
def ToolCategory.toMode : ToolCategory → MesmericMode
  | .reading => .SCAN
  | .writing => .BUILD
  | .searching => .SCAN
  | .bash => .CRUNCH
  | .fetch => .SCAN
  | .agentTask => .CRUNCH
  | .other => .BUILD

-- ===========================================================================
-- Cost tracker (tui/src/lib/cost-tracker.ts)
-- ===========================================================================

/-- Price pair for one model family: dollars per million input and output
tokens. -/
structure ModelPricing where
  input : ℚ
  output : ℚ
deriving DecidableEq

/-- The pricing table: one price pair per model family plus the date the
table was last updated. -/
structure PricingConfig where
  sonnet : ModelPricing
  opus : ModelPricing
  haiku : ModelPricing
  lastUpdated : String
deriving DecidableEq

/-- A partial pricing table used as an override: any subset of the families
and the date may be supplied. -/
structure PricingOverride where
  sonnet : Option ModelPricing
  opus : Option ModelPricing
  haiku : Option ModelPricing
  lastUpdated : Option String
deriving DecidableEq

/-- Modelled from the spec: the pure helper `mergePricing(base, override?)`
of tui/src/lib/cost-tracker.ts, whose implementation file is not part of
the sources here (only its test is).  With an absent override the base
table itself is returned; with an override present, each family supplied by
the override fully replaces the base family, families not supplied keep the
base values, and `lastUpdated` is replaced exactly when supplied. -/
def mergePricing (base : PricingConfig) (override : Option PricingOverride) :
    PricingConfig :=
  match override with
  | none => base
  | some o =>
    { sonnet := o.sonnet.getD base.sonnet
      opus := o.opus.getD base.opus
      haiku := o.haiku.getD base.haiku
      lastUpdated := o.lastUpdated.getD base.lastUpdated }

/-- Modelled from the spec: the staleness threshold of `isPricingStale`
(documented as 90 days). -/
def stalenessThresholdDays : Int := 90

/-- Modelled from the spec: the pure helper `isPricingStale(dateString)` of
tui/src/lib/cost-tracker.ts, whose implementation file is not part of the
sources here.  Date parsing is abstracted: `parsedDate` is the parsed
`lastUpdated` date and `nowDay` the current date, both as day numbers;
`none` stands for an unparsable date string, which is reported stale.  A
parsed date is stale exactly when it lies more than the threshold in the
past. -/
def isPricingStale (parsedDate : Option Int) (nowDay : Int) : Bool :=
  match parsedDate with
  | none => true
  | some d => nowDay - d > stalenessThresholdDays

/-- Modelled from the spec: the token-estimation divisor (four characters
per token). -/
def charsPerToken : Nat := 4

/-- Modelled from the spec: token estimate for a serialized text of
`chars` characters. -/
def estimateTokens (chars : Nat) : Nat := chars / charsPerToken

/-- Modelled from the spec: one normalized hook event as consumed by
`CostTracker.processEvent`.  `inputChars` and `responseChars` are the
serialized sizes of the structured `input` and `response` objects when
present. -/
structure HudEvent where
  event : String
  inputChars : Option Nat
  responseChars : Option Nat
  prompt : Option String
deriving DecidableEq

/-- Modelled from the spec: the mutable state owned by one `CostTracker`
instance of tui/src/lib/cost-tracker.ts, whose implementation file is not
part of the sources here. -/
structure CostTracker where
  inputTokens : Nat
  outputTokens : Nat
  model : String
  pricing : PricingConfig
deriving DecidableEq

/-- Modelled from the spec: `CostTracker.processEvent`.  A tool-completion
event (`PostToolUse`) adds the input and response token estimates; a
prompt-submission event (`UserPromptSubmit`) adds the prompt estimate; any
other event kind is a no-op. -/
def CostTracker.processEvent (s : CostTracker) (e : HudEvent) : CostTracker :=
  if e.event = "PostToolUse" then
    { s with
      inputTokens := s.inputTokens +
        (match e.inputChars with | some c => estimateTokens c | none => 0)
      outputTokens := s.outputTokens +
        (match e.responseChars with | some c => estimateTokens c | none => 0) }
  else if e.event = "UserPromptSubmit" then
    { s with
      inputTokens := s.inputTokens +
        (match e.prompt with | some p => estimateTokens p.length | none => 0) }
  else
    s

/-- Modelled from the spec: `CostTracker.reset` zeroes the counters and
leaves pricing and model selection alone. -/
def CostTracker.reset (s : CostTracker) : CostTracker :=
  { s with inputTokens := 0, outputTokens := 0 }

-- ===========================================================================
-- Concrete inputs used by witnesses and counterexamples
-- ===========================================================================

/-- Usage snapshot worth 95 percent of a 100-token window. -/
def usage95 : ContextUsage := ⟨some 95, some 0, some 0⟩

/-- Empty transcript under high context pressure. -/
def cexPressureCtx : RenderContext := ⟨[], [], [], some usage95, some 100⟩

/-- Busy transcript (running tool, running agent, in-progress todo) under
high context pressure. -/
def pressureBusyCtx : RenderContext :=
  ⟨[⟨"Bash", some "npm test", .running, 0, none⟩],
   [⟨"explorer", some "scanning files", .running, 0⟩],
   [⟨"write docs", .in_progress⟩],
   some usage95, some 100⟩

/-- A completed Read tool whose end time is 1000 ms. -/
def readToolDone : ToolEntry := ⟨"Read", none, .completed, 0, some 1000⟩

/-- Transcript with a just-completed tool and an in-progress todo. -/
def cexTodoRecencyCtx : RenderContext :=
  ⟨[readToolDone], [], [⟨"write tests", .in_progress⟩], none, none⟩

/-- A completed Grep tool whose end time 19000 ms is recent when `now` is
20000 ms. -/
def grepToolRecent : ToolEntry := ⟨"Grep", none, .completed, 0, some 19000⟩

/-- A completed Read tool whose end time 1000 ms is long past when `now` is
20000 ms. -/
def readToolStale : ToolEntry := ⟨"Read", none, .completed, 0, some 1000⟩

/-- Transcript whose last completed tool is stale while an earlier
completed tool finished within the recency window. -/
def staleRecencyCtx : RenderContext :=
  ⟨[grepToolRecent, readToolStale], [], [], none, none⟩

/-- Modelled from the spec: the default pricing table (sonnet 3/15,
opus 15/75, haiku 0.25/1.25 dollars per million tokens). -/
def defaultPricing : PricingConfig :=
  ⟨⟨3, 15⟩, ⟨15, 75⟩, ⟨1 / 4, 5 / 4⟩, "2025-01-01"⟩

/-- A partial override supplying only the sonnet family. -/
def sonnetOverride : PricingOverride := ⟨some ⟨5, 25⟩, none, none, none⟩

-- ===========================================================================
-- Helper lemmas
-- ===========================================================================

theorem find_running_agent_none (agents : List AgentEntry)
    (h : ∀ a ∈ agents, a.status ≠ RunStatus.running) :
    agents.find? (fun a => decide (a.status = RunStatus.running)) = none := by
  rw [List.find?_eq_none]
  intro a ha
  simpa using h a ha

theorem filter_running_tools_nil (tools : List ToolEntry)
    (h : ∀ t ∈ tools, t.status ≠ RunStatus.running) :
    tools.filter (fun t => decide (t.status = RunStatus.running)) = [] := by
  rw [List.filter_eq_nil_iff]
  intro t ht
  simpa using h t ht

theorem find_inprogress_none (todos : List TodoItem)
    (h : ∀ td ∈ todos, td.status ≠ TodoStatus.in_progress) :
    todos.find? (fun t => decide (t.status = TodoStatus.in_progress)) = none := by
  rw [List.find?_eq_none]
  intro td htd
  simpa using h td htd

theorem getLast?_drop_sub {α : Type} (l : List α) (k : Nat) (hk : 0 < k) :
    (l.drop (l.length - k)).getLast? = l.getLast? := by
  rcases eq_or_ne l [] with rfl | hne
  · simp
  · have hlen : 0 < l.length := List.length_pos.mpr hne
    rw [List.getLast?_eq_getElem?, List.getLast?_eq_getElem?,
      List.getElem?_drop, List.length_drop]
    congr 1
    omega

theorem pressure_case (ctx : RenderContext) (now : Int)
    (h : 90 ≤ getContextPercent ctx) :
    AnimationLine.detectActivityState ctx now =
      ⟨.pressure, toString (getContextPercent ctx) ++ "% context used", none⟩ ∧
    AltLine.detectActivityState ctx now =
      ⟨.pressure, toString (getContextPercent ctx) ++ "% context used", none⟩ ∧
    Mesmeric.detectMesmericMode ctx now =
      ⟨.PRESSURE, toString (getContextPercent ctx) ++ "% context"⟩ := by
  refine ⟨?_, ?_, ?_⟩ <;>
    simp [AnimationLine.detectActivityState, AltLine.detectActivityState,
      Mesmeric.detectMesmericMode, h]

theorem cexPressureCtx_percent : getContextPercent cexPressureCtx = 95 := by
  norm_num [getContextPercent, cexPressureCtx, usage95, ContextUsage.total,
    round_eq]

theorem pressureBusyCtx_percent : getContextPercent pressureBusyCtx = 95 := by
  norm_num [getContextPercent, pressureBusyCtx, usage95, ContextUsage.total,
    round_eq]

theorem animation_afterRecency_success_detail (tools : List ToolEntry)
    (agents : List AgentEntry) (todos : List TodoItem) (now : Int) :
    (AnimationLine.detectAfterRecency tools agents todos now).state =
      ActivityState.success →
    (AnimationLine.detectAfterRecency tools agents todos now).detail =
      "All tasks done!" := by
  unfold AnimationLine.detectAfterRecency
  split
  · intro _; rfl
  · split
    · simp
    · split
      · split
        · split
          · split <;> simp
          · simp
        · simp
      · simp

theorem mesmeric_afterRecency_success_detail (tools : List ToolEntry)
    (agents : List AgentEntry) (todos : List TodoItem) (now : Int) :
    (Mesmeric.detectAfterRecency tools agents todos now).mode =
      MesmericMode.SUCCESS →
    (Mesmeric.detectAfterRecency tools agents todos now).detail =
      "All tasks done!" := by
  unfold Mesmeric.detectAfterRecency
  split
  · intro _; rfl
  · split
    · simp
    · split
      · split
        · split
          · split <;> simp
          · simp
        · simp
      · simp

-- ===========================================================================
-- Claim theorems
-- ===========================================================================

/-- Claim C4 (confirmed): for the maximum lengths used by the classifier
(25 or 30), a string longer than the maximum truncates to exactly its first
`max - 3` characters followed by `"..."`, so the result has exactly `max`
characters, and a string of at most the maximum length is returned
unchanged. -/
theorem truncate_exact (text : String) (maxLen : Nat)
    (hmax : maxLen = 25 ∨ maxLen = 30) :
    (maxLen < text.length →
      truncate text maxLen =
        String.mk (text.data.take (maxLen - 3)) ++ "..." ∧
      (truncate text maxLen).length = maxLen) ∧
    (text.length ≤ maxLen → truncate text maxLen = text) := by
  have hdata : text.length = text.data.length := rfl
  constructor
  · intro hlong
    have hne : ¬ text.length ≤ maxLen := by omega
    have heq : truncate text maxLen =
        String.mk (text.data.take (maxLen - 3)) ++ "..." := by
      unfold truncate
      rw [if_neg hne]
    refine ⟨heq, ?_⟩
    rw [heq]
    rw [show String.mk (text.data.take (maxLen - 3)) ++ "..." =
        String.mk (text.data.take (maxLen - 3) ++ ['.', '.', '.']) from rfl]
    show (text.data.take (maxLen - 3) ++ ['.', '.', '.']).length = maxLen
    rw [List.length_append, List.length_take]
    simp only [List.length_cons, List.length_nil]
    omega
  · intro hshort
    unfold truncate
    rw [if_pos hshort]

/-- Witness for C4: a 30-character string truncated with maximum 25 yields
the 25-character string made of its first 22 characters and `"..."`; a
10-character string with maximum 25 is unchanged. -/
theorem truncate_exact_witness :
    truncate "abcdefghijklmnopqrstuvwxyz0123" 25 = "abcdefghijklmnopqrstuv..." ∧
    (truncate "abcdefghijklmnopqrstuvwxyz0123" 25).length = 25 ∧
    truncate "abcdefghij" 25 = "abcdefghij" := by
  obtain ⟨hlong, -⟩ :=
    truncate_exact "abcdefghijklmnopqrstuvwxyz0123" 25 (Or.inl rfl)
  obtain ⟨-, hshort⟩ := truncate_exact "abcdefghij" 25 (Or.inl rfl)
  obtain ⟨h1, h2⟩ := hlong (by decide)
  exact ⟨h1.trans (by decide), h2, hshort (by decide)⟩

/-- Claim C5 (confirmed): with usage and window size present, the derived
context percentage is `round(100 * (inputTokens + cacheCreationTokens +
cacheReadTokens) / contextWindowSize)`, and it is 0 whenever the usage
object or the window size is absent, so no division by zero occurs. -/
theorem contextPercent_formula (tools : List ToolEntry)
    (agents : List AgentEntry) (todos : List TodoItem) (u : ContextUsage)
    (s : Nat) (cu : Option ContextUsage) (sz : Option Nat) :
    getContextPercent ⟨tools, agents, todos, some u, some s⟩ =
      round (100 * (u.total : ℚ) / (s : ℚ)) ∧
    getContextPercent ⟨tools, agents, todos, none, sz⟩ = 0 ∧
    getContextPercent ⟨tools, agents, todos, cu, none⟩ = 0 := by
  refine ⟨?_, rfl, ?_⟩
  · show (if s = 0 then 0 else round ((u.total : ℚ) / (s : ℚ) * 100)) = _
    by_cases hs : s = 0
    · rw [if_pos hs, hs]
      simp
    · rw [if_neg hs]
      congr 1
      ring
  · cases cu <;> rfl

/-- Claim C7 (confirmed, spec-modelled): merging with an absent override
returns the base table itself; with an override present, each family
supplied by the override is fully replaced, families absent from the
override keep the base values, and `lastUpdated` is replaced exactly when
the override supplies it. -/
theorem mergePricing_merge (base : PricingConfig) (o : PricingOverride) :
    mergePricing base none = base ∧
    (∀ r, o.sonnet = some r → (mergePricing base (some o)).sonnet = r) ∧
    (o.sonnet = none → (mergePricing base (some o)).sonnet = base.sonnet) ∧
    (∀ r, o.opus = some r → (mergePricing base (some o)).opus = r) ∧
    (o.opus = none → (mergePricing base (some o)).opus = base.opus) ∧
    (∀ r, o.haiku = some r → (mergePricing base (some o)).haiku = r) ∧
    (o.haiku = none → (mergePricing base (some o)).haiku = base.haiku) ∧
    (∀ d, o.lastUpdated = some d →
      (mergePricing base (some o)).lastUpdated = d) ∧
    (o.lastUpdated = none →
      (mergePricing base (some o)).lastUpdated = base.lastUpdated) := by
  refine ⟨rfl, ?_, ?_, ?_, ?_, ?_, ?_, ?_, ?_⟩ <;>
    intros <;> simp_all [mergePricing]

/-- Witness for C7: on the concrete table of the cost-tracker test, an
override supplying only the sonnet family replaces sonnet and keeps the
other families and the date. -/
theorem mergePricing_merge_witness :
    mergePricing defaultPricing none = defaultPricing ∧
    (mergePricing defaultPricing (some sonnetOverride)).sonnet = ⟨5, 25⟩ ∧
    (mergePricing defaultPricing (some sonnetOverride)).opus =
      defaultPricing.opus ∧
    (mergePricing defaultPricing (some sonnetOverride)).haiku =
      defaultPricing.haiku ∧
    (mergePricing defaultPricing (some sonnetOverride)).lastUpdated =
      defaultPricing.lastUpdated := by
  obtain ⟨h1, h2, h3, h4, h5, h6, h7, h8, h9⟩ :=
    mergePricing_merge defaultPricing sonnetOverride
  exact ⟨h1, h2 ⟨5, 25⟩ rfl, h5 rfl, h7 rfl, h9 rfl⟩

/-- Claim C8 (confirmed, spec-modelled): a parsed date is stale exactly
when it lies more than the 90-day threshold in the past; a date 200 days in
the past is stale, a date 10 days in the past is not, a future date is not,
and an unparsable date is reported stale; the function is total, so no
input raises an error. -/
theorem isPricingStale_threshold (nowDay d : Int) :
    (isPricingStale (some d) nowDay = true ↔ nowDay - d > 90) ∧
    isPricingStale (some (nowDay - 200)) nowDay = true ∧
    isPricingStale (some (nowDay - 10)) nowDay = false ∧
    isPricingStale none nowDay = true ∧
    (nowDay ≤ d → isPricingStale (some d) nowDay = false) := by
  refine ⟨?_, ?_, ?_, rfl, ?_⟩
  · simp [isPricingStale, stalenessThresholdDays]
  · simp only [isPricingStale, stalenessThresholdDays, decide_eq_true_eq]
    omega
  · simp only [isPricingStale, stalenessThresholdDays,
      decide_eq_false_iff_not]
    omega
  · intro h
    simp only [isPricingStale, stalenessThresholdDays,
      decide_eq_false_iff_not]
    omega

/-- Witness for C8: staleness at day 0 for dates 200 days past, 10 days
past, unparsable, and 100 days in the future. -/
theorem isPricingStale_threshold_witness :
    isPricingStale (some (0 - 200)) 0 = true ∧
    isPricingStale (some (0 - 10)) 0 = false ∧
    isPricingStale none 0 = true ∧
    isPricingStale (some 100) 0 = false := by
  obtain ⟨h1, h2, h3, h4, h5⟩ := isPricingStale_threshold 0 100
  exact ⟨h2, h3, h4, h5 (by decide)⟩

theorem processEvent_input_mono (s : CostTracker) (e : HudEvent) :
    s.inputTokens ≤ (s.processEvent e).inputTokens := by
  unfold CostTracker.processEvent
  split
  · exact Nat.le_add_right _ _
  · split
    · exact Nat.le_add_right _ _
    · exact Nat.le_refl _

theorem processEvent_output_mono (s : CostTracker) (e : HudEvent) :
    s.outputTokens ≤ (s.processEvent e).outputTokens := by
  unfold CostTracker.processEvent
  split
  · exact Nat.le_add_right _ _
  · split
    · exact Nat.le_refl _
    · exact Nat.le_refl _

theorem foldl_processEvent_input_mono :
    ∀ (events : List HudEvent) (s : CostTracker),
      s.inputTokens ≤ (events.foldl CostTracker.processEvent s).inputTokens
  | [], _ => Nat.le_refl _
  | e :: es, s =>
    Nat.le_trans (processEvent_input_mono s e)
      (foldl_processEvent_input_mono es (s.processEvent e))

theorem foldl_processEvent_output_mono :
    ∀ (events : List HudEvent) (s : CostTracker),
      s.outputTokens ≤ (events.foldl CostTracker.processEvent s).outputTokens
  | [], _ => Nat.le_refl _
  | e :: es, s =>
    Nat.le_trans (processEvent_output_mono s e)
      (foldl_processEvent_output_mono es (s.processEvent e))

/-- Claim C9 (confirmed, spec-modelled): the token counters never decrease
across a processed event (nor across any sequence of processed events), an
unknown event kind leaves the whole state unchanged, and reset zeroes the
counters while leaving the pricing table and the selected model unchanged. -/
theorem costTracker_monotone_reset (s : CostTracker) (e : HudEvent)
    (events : List HudEvent) :
    s.inputTokens ≤ (s.processEvent e).inputTokens ∧
    s.outputTokens ≤ (s.processEvent e).outputTokens ∧
    (e.event ≠ "PostToolUse" → e.event ≠ "UserPromptSubmit" →
      s.processEvent e = s) ∧
    s.inputTokens ≤ (events.foldl CostTracker.processEvent s).inputTokens ∧
    s.outputTokens ≤ (events.foldl CostTracker.processEvent s).outputTokens ∧
    s.reset.inputTokens = 0 ∧
    s.reset.outputTokens = 0 ∧
    s.reset.pricing = s.pricing ∧
    s.reset.model = s.model := by
  refine ⟨processEvent_input_mono s e, processEvent_output_mono s e, ?_,
    foldl_processEvent_input_mono events s,
    foldl_processEvent_output_mono events s, rfl, rfl, rfl, rfl⟩
  intro h1 h2
  unfold CostTracker.processEvent
  rw [if_neg h1, if_neg h2]

/-- Witness for C9: a tracker with accumulated counters processes an
unknown `SessionStart` event unchanged, counters never drop across a
concrete event list, and reset zeroes only the counters. -/
theorem costTracker_monotone_reset_witness :
    (CostTracker.mk 100 50 "claude-sonnet-4" defaultPricing).processEvent
      ⟨"SessionStart", some 400, none, none⟩ =
      CostTracker.mk 100 50 "claude-sonnet-4" defaultPricing ∧
    (CostTracker.mk 100 50 "claude-sonnet-4" defaultPricing).reset.inputTokens
      = 0 ∧
    (CostTracker.mk 100 50 "claude-sonnet-4" defaultPricing).reset.pricing =
      defaultPricing ∧
    100 ≤ (([⟨"PostToolUse", some 400, some 4000, none⟩] :
      List HudEvent).foldl CostTracker.processEvent
        (CostTracker.mk 100 50 "claude-sonnet-4" defaultPricing)).inputTokens := by
  obtain ⟨-, -, h3, h4, -, h6, -, h8, -⟩ :=
    costTracker_monotone_reset
      (CostTracker.mk 100 50 "claude-sonnet-4" defaultPricing)
      ⟨"SessionStart", some 400, none, none⟩
      [⟨"PostToolUse", some 400, some 4000, none⟩]
  exact ⟨h3 (by decide) (by decide), h6, h8, h4⟩

/-- Counterexample for C1: on an empty transcript at 95 percent context the
mesmeric classifier returns the pressure mode with detail "95% context",
not the "{percent}% context used" detail the claim states for every
classifier. -/
theorem mesmeric_pressure_detail_cex :
    Mesmeric.detectMesmericMode cexPressureCtx 0 =
      ⟨MesmericMode.PRESSURE, "95% context"⟩ ∧
    ("95% context" : String) ≠ "95% context used" := by
  constructor
  · obtain ⟨-, -, h3⟩ := pressure_case cexPressureCtx 0
      (by rw [cexPressureCtx_percent]; decide)
    rw [cexPressureCtx_percent] at h3
    exact h3.trans (by decide)
  · decide

/-- Claim C1 (amended): whenever the derived context percentage is at least
90, every classifier variant returns the pressure state regardless of any
running tool, running agent, todo, or completion signal in the snapshot;
the detail is "{percent}% context used" in the two animation-line variants
and "{percent}% context" in the mesmeric variant. -/
theorem pressure_overrides_all (ctx : RenderContext) (now : Int)
    (h : 90 ≤ getContextPercent ctx) :
    AnimationLine.detectActivityState ctx now =
      ⟨.pressure, toString (getContextPercent ctx) ++ "% context used", none⟩ ∧
    AltLine.detectActivityState ctx now =
      ⟨.pressure, toString (getContextPercent ctx) ++ "% context used", none⟩ ∧
    Mesmeric.detectMesmericMode ctx now =
      ⟨.PRESSURE, toString (getContextPercent ctx) ++ "% context"⟩ :=
  pressure_case ctx now h

/-- Witness for C1: a snapshot at 95 percent context with a running tool, a
running agent, and an in-progress todo is classified pressure by all three
variants. -/
theorem pressure_overrides_all_witness :
    AnimationLine.detectActivityState pressureBusyCtx 0 =
      ⟨.pressure, "95% context used", none⟩ ∧
    AltLine.detectActivityState pressureBusyCtx 0 =
      ⟨.pressure, "95% context used", none⟩ ∧
    Mesmeric.detectMesmericMode pressureBusyCtx 0 =
      ⟨.PRESSURE, "95% context"⟩ := by
  obtain ⟨h1, h2, h3⟩ := pressure_overrides_all pressureBusyCtx 0
    (by rw [pressureBusyCtx_percent]; decide)
  rw [pressureBusyCtx_percent] at h1 h2 h3
  exact ⟨h1.trans (by decide), h2.trans (by decide), h3.trans (by decide)⟩

/-- Counterexample for C6: an empty transcript (no tools, agents, or
todos) at 95 percent context is classified pressure, not sleeping. -/
theorem empty_snapshot_pressure_cex :
    (AnimationLine.detectActivityState cexPressureCtx 0).state =
      ActivityState.pressure ∧
    ActivityState.pressure ≠ ActivityState.sleeping := by
  constructor
  · obtain ⟨h1, -, -⟩ := pressure_case cexPressureCtx 0
      (by rw [cexPressureCtx_percent]; decide)
    rw [h1]
  · decide

/-- Claim C6 (amended): a snapshot with no tools, no agents, and no todos
whose context percentage is below 90 is classified as the terminal
fallback with detail "Waiting for input"; the state is sleeping in the
main animation line, idle in the alternate build, and SLEEP in the
mesmeric variant. -/
theorem sleeping_fallback (cu : Option ContextUsage) (sz : Option Nat)
    (now : Int) (h : getContextPercent ⟨[], [], [], cu, sz⟩ < 90) :
    AnimationLine.detectActivityState ⟨[], [], [], cu, sz⟩ now =
      ⟨.sleeping, "Waiting for input", none⟩ ∧
    AltLine.detectActivityState ⟨[], [], [], cu, sz⟩ now =
      ⟨.idle, "Waiting for input", none⟩ ∧
    Mesmeric.detectMesmericMode ⟨[], [], [], cu, sz⟩ now =
      ⟨.SLEEP, "Waiting for input"⟩ := by
  have hn : ¬ 90 ≤ getContextPercent ⟨[], [], [], cu, sz⟩ := not_le.mpr h
  refine ⟨?_, ?_, ?_⟩ <;>
    simp [AnimationLine.detectActivityState, AnimationLine.detectAfterRecency,
      AltLine.detectActivityState, AltLine.detectAfterRecency,
      Mesmeric.detectMesmericMode, Mesmeric.detectAfterRecency, hn]

/-- Witness for C6: the fully empty snapshot (usage absent, so the
percentage is 0) is classified sleeping / idle / SLEEP with detail
"Waiting for input". -/
theorem sleeping_fallback_witness :
    AnimationLine.detectActivityState ⟨[], [], [], none, none⟩ 0 =
      ⟨.sleeping, "Waiting for input", none⟩ ∧
    AltLine.detectActivityState ⟨[], [], [], none, none⟩ 0 =
      ⟨.idle, "Waiting for input", none⟩ ∧
    Mesmeric.detectMesmericMode ⟨[], [], [], none, none⟩ 0 =
      ⟨.SLEEP, "Waiting for input"⟩ :=
  sleeping_fallback none none 0 (by decide)

/-- Counterexample for C3: in the alternate build the tool name "Tools"
(whose lowercase form contains "ls" as a substring) maps to reading, not
to the thinking fallback that the claim assigns to every name matching no
keyword. -/
theorem alt_ls_substring_cex :
    AltLine.getToolState ⟨"Tools", none, RunStatus.running, 0, none⟩ =
      ActivityState.reading ∧
    ActivityState.reading ≠ ActivityState.thinking :=
  ⟨by decide, by decide⟩

/-- Claim C3 (amended): the main animation line and the mesmeric variant
realize exactly the claimed keyword table (substring matches on the
lowercased name, "ls" by exact equality, earlier rules winning, with the
reading/scan, writing/build, searching/scan, bash/crunch, fetch/scan,
agent/crunch and thinking/build interpretations); the alternate build
realizes the same table except that "ls" is matched as a substring and
"notebook" is not a writing keyword. -/
theorem tool_name_mapping (tool : ToolEntry) :
    AnimationLine.getToolState tool = (specToolCategory tool.name).toState ∧
    Mesmeric.getToolMode tool = (specToolCategory tool.name).toMode ∧
    AltLine.getToolState tool = (specToolCategoryAlt tool.name).toState := by
  refine ⟨?_, ?_, ?_⟩
  · simp only [AnimationLine.getToolState, specToolCategory]
    split_ifs <;> rfl
  · simp only [Mesmeric.getToolMode, specToolCategory]
    split_ifs <;> rfl
  · simp only [AltLine.getToolState, specToolCategoryAlt]
    split_ifs <;> rfl

/-- Counterexample for C2: in the alternate build, a snapshot whose last
completed tool finished 500 ms ago (inside the 2000 ms window) but which
holds an in-progress todo is classified progress, not the recency success
state the claim says takes priority over in-progress todos. -/
theorem alt_todo_beats_recency_cex :
    AltLine.detectActivityState cexTodoRecencyCtx 1500 =
      ⟨ActivityState.progress, "0/1 tasks", none⟩ ∧
    ActivityState.progress ≠ ActivityState.success ∧
    ((1500 : Int) - 1000 < 2000) :=
  ⟨by decide, by decide, by decide⟩

/-- Claim C2 (amended): with context below 90 percent and no running agent
or tool, the main animation line returns the recency success state with
detail "{name} complete!" when the last completed tool ended within
3000 ms, regardless of any in-progress todo; the alternate build returns
its recency success state with detail "{name} done!" under a 2000 ms
window, but only when no todo is in progress, because its in-progress-todo
check is evaluated first. -/
theorem recency_success_priority (tools : List ToolEntry)
    (agents : List AgentEntry) (todos : List TodoItem)
    (cu : Option ContextUsage) (sz : Option Nat) (now : Int)
    (mr : ToolEntry) (e : Int)
    (hcp : getContextPercent ⟨tools, agents, todos, cu, sz⟩ < 90)
    (hagents : ∀ a ∈ agents, a.status ≠ RunStatus.running)
    (htools : ∀ t ∈ tools, t.status ≠ RunStatus.running)
    (hlast : (tools.filter
      (fun t => decide (t.status = RunStatus.completed))).getLast? = some mr)
    (hend : mr.endTime = some e) :
    (now - e < 3000 →
      AnimationLine.detectActivityState ⟨tools, agents, todos, cu, sz⟩ now =
        ⟨.success, mr.name ++ " complete!", none⟩) ∧
    ((∀ td ∈ todos, td.status ≠ TodoStatus.in_progress) → now - e < 2000 →
      AltLine.detectActivityState ⟨tools, agents, todos, cu, sz⟩ now =
        ⟨.success, mr.name ++ " done!", none⟩) := by
  have hn : ¬ 90 ≤ getContextPercent ⟨tools, agents, todos, cu, sz⟩ :=
    not_le.mpr hcp
  have hfa := find_running_agent_none agents hagents
  have hft := filter_running_tools_nil tools htools
  constructor
  · intro hw
    simp [AnimationLine.detectActivityState, hn, hfa, hft, hlast, hend, hw]
  · intro htd hw
    have hfd := find_inprogress_none todos htd
    have hdrop : ((tools.filter
        (fun t => decide (t.status = RunStatus.completed))).drop
          ((tools.filter
            (fun t => decide (t.status = RunStatus.completed))).length - 3)).getLast?
        = some mr := by
      rw [getLast?_drop_sub _ 3 (by norm_num)]
      exact hlast
    simp [AltLine.detectActivityState, hn, hfa, hft, hfd, hdrop, hend, hw]

/-- Witness for C2: a tool completed at 1000 ms evaluated at 1500 ms gives
"Read complete!" in the main variant even alongside an in-progress todo,
and "Read done!" in the alternate build when the todo list is empty. -/
theorem recency_success_priority_witness :
    AnimationLine.detectActivityState
      ⟨[readToolDone], [], [⟨"write tests", .in_progress⟩], none, none⟩ 1500 =
      ⟨.success, "Read complete!", none⟩ ∧
    AltLine.detectActivityState ⟨[readToolDone], [], [], none, none⟩ 1500 =
      ⟨.success, "Read done!", none⟩ := by
  constructor
  · have h := (recency_success_priority [readToolDone] []
      [⟨"write tests", .in_progress⟩] none none 1500 readToolDone 1000
      (by decide) (by decide) (by decide) (by decide) (by decide)).1
      (by decide)
    exact h.trans (by decide)
  · have h := (recency_success_priority [readToolDone] [] [] none none 1500
      readToolDone 1000 (by decide) (by decide) (by decide) (by decide)
      (by decide)).2 (by decide) (by decide)
    exact h.trans (by decide)

/-- Claim C10 (confirmed): with context below 90 percent and no running
agent or tool, when the last completed tool in list order has an absent
endTime or one outside the 3000 ms window, the main and mesmeric
classifiers fall through to the rules after the recency check — silently,
with no error, and regardless of any earlier completed tool whose endTime
lies inside the window — and those later rules can only produce the
all-todos success detail "All tasks done!", never the per-tool recency
success detail. -/
theorem recency_checks_last_only (tools : List ToolEntry)
    (agents : List AgentEntry) (todos : List TodoItem)
    (cu : Option ContextUsage) (sz : Option Nat) (now : Int) (mr : ToolEntry)
    (hcp : getContextPercent ⟨tools, agents, todos, cu, sz⟩ < 90)
    (hagents : ∀ a ∈ agents, a.status ≠ RunStatus.running)
    (htools : ∀ t ∈ tools, t.status ≠ RunStatus.running)
    (hlast : (tools.filter
      (fun t => decide (t.status = RunStatus.completed))).getLast? = some mr)
    (hstale : mr.endTime = none ∨ ∃ e, mr.endTime = some e ∧ 3000 ≤ now - e) :
    AnimationLine.detectActivityState ⟨tools, agents, todos, cu, sz⟩ now =
      AnimationLine.detectAfterRecency tools agents todos now ∧
    Mesmeric.detectMesmericMode ⟨tools, agents, todos, cu, sz⟩ now =
      Mesmeric.detectAfterRecency tools agents todos now ∧
    ((AnimationLine.detectAfterRecency tools agents todos now).state =
        ActivityState.success →
      (AnimationLine.detectAfterRecency tools agents todos now).detail =
        "All tasks done!") ∧
    ((Mesmeric.detectAfterRecency tools agents todos now).mode =
        MesmericMode.SUCCESS →
      (Mesmeric.detectAfterRecency tools agents todos now).detail =
        "All tasks done!") := by
  have hn : ¬ 90 ≤ getContextPercent ⟨tools, agents, todos, cu, sz⟩ :=
    not_le.mpr hcp
  have hfa := find_running_agent_none agents hagents
  have hft := filter_running_tools_nil tools htools
  refine ⟨?_, ?_,
    animation_afterRecency_success_detail tools agents todos now,
    mesmeric_afterRecency_success_detail tools agents todos now⟩
  · rcases hstale with hnone | ⟨e, he, hge⟩
    · simp [AnimationLine.detectActivityState, hn, hfa, hft, hlast, hnone]
    · have hlt : ¬ now - e < 3000 := not_lt.mpr hge
      simp [AnimationLine.detectActivityState, hn, hfa, hft, hlast, he, hlt]
  · rcases hstale with hnone | ⟨e, he, hge⟩
    · simp [Mesmeric.detectMesmericMode, hn, hfa, hft, hlast, hnone]
    · have hlt : ¬ now - e < 3000 := not_lt.mpr hge
      simp [Mesmeric.detectMesmericMode, hn, hfa, hft, hlast, he, hlt]

/-- Witness for C10: at 20000 ms, a transcript whose last completed tool
ended at 1000 ms (long stale) while an earlier completed tool ended at
19000 ms (inside the window) is classified idle "Ready", not the recency
success state. -/
theorem recency_checks_last_only_witness :
    AnimationLine.detectActivityState staleRecencyCtx 20000 =
      ⟨ActivityState.idle, "Ready", none⟩ ∧
    grepToolRecent.endTime = some 19000 ∧
    ((20000 : Int) - 19000 < 3000) := by
  refine ⟨?_, by decide, by decide⟩
  have h := (recency_checks_last_only [grepToolRecent, readToolStale] [] []
    none none 20000 readToolStale (by decide) (by decide) (by decide)
    (by decide) (Or.inr ⟨1000, by decide, by decide⟩)).1
  exact h.trans (by decide)
